import Mathlib

/-!
Shallow embedding of the YTS API client (src/api.py) and verification of
its specification.  The client validates request parameters, assembles a
query-parameter mapping, issues an HTTP GET through a transport, parses the
JSON envelope and unwraps it, builds BitTorrent magnet links, and streams
torrent files to disk.  The HTTP transport and the filesystem are modelled
explicitly as inputs so that every operation is a pure function of its
arguments, the client configuration and the transport outcome.
-/

namespace YTS

/-- Python scalar argument values as received by the client methods:
None, an int, a str, or a bool. -/
inductive PyVal where
  | none
  | int (n : Int)
  | str (s : String)
  | bool (b : Bool)
deriving Repr, DecidableEq

/-- Decoded JSON values, as produced by response.json(). -/
inductive Json where
  | null
  | bool (b : Bool)
  | num (n : Int)
  | str (s : String)
  | arr (xs : List Json)
  | obj (fields : List (String × Json))
deriving Repr

/-- Python repr() of a decoded JSON value (used for elements of containers
when they are interpolated into an f-string); escaping of special
characters inside string repr is not modelled. -/
def pyRepr : Json → String
  | .null => "None"
  | .bool true => "True"
  | .bool false => "False"
  | .num n => toString n
  | .str s => "\x27" ++ s ++ "\x27"
  | .arr xs => "[" ++ String.intercalate ", " (xs.attach.map fun x => pyRepr x.1) ++ "]"
  | .obj fs =>
      "\x7b" ++
        String.intercalate ", "
          (fs.attach.map fun kv => "\x27" ++ kv.1.1 ++ "\x27: " ++ pyRepr kv.1.2) ++
      "\x7d"
decreasing_by
  · have := List.sizeOf_lt_of_mem x.2
    simp at this ⊢
    omega
  · have h1 := List.sizeOf_lt_of_mem kv.2
    have h2 : sizeOf kv.1.2 < sizeOf kv.1 := by
      obtain ⟨a, b⟩ := kv.1
      simp
    simp at h1 h2 ⊢
    omega

/-- Python str() of a decoded JSON value, as interpolated into an
f-string. -/
def pyStr (j : Json) : String :=
  match j with
  | .str s => s
  | j => pyRepr j

/-- Dictionary lookup response.get(k) on a decoded JSON object. -/
def jsonGet (j : Json) (k : String) : Option Json :=
  match j with
  | .obj fs => fs.lookup k
  | _ => Option.none

/-- The error taxonomy of the client: YTSParameterError, YTSRequestError
and YTSResponseError (all deriving from YTSAPIError), carrying the
message string. -/
inductive YTSError where
  | parameterError (msg : String)
  | requestError (msg : String)
  | responseError (msg : String)
deriving Repr, DecidableEq

/-- Whitespace characters int() strips from the ends of its argument. -/
def isPySpace (c : Char) : Bool :=
  c = ' ' ∨ c = '\t' ∨ c = '\n' ∨ c = '\r'

/-- Decimal digits to the natural number they denote. -/
def digitsToNat (cs : List Char) : Nat :=
  cs.foldl (fun acc c => acc * 10 + (c.toNat - 48)) 0

/-- Python int(s) on a string: surrounding whitespace is ignored, an
optional sign precedes decimal digits; anything else fails to parse. -/
def parseIntStr (s : String) : Option Int :=
  let t := ((s.data.dropWhile isPySpace).reverse.dropWhile isPySpace).reverse
  match t with
  | [] => Option.none
  | c :: rest =>
    let core := if c = '-' ∨ c = '+' then rest else c :: rest
    if core ≠ [] ∧ core.all Char.isDigit then
      some (if c = '-' then -(Int.ofNat (digitsToNat core)) else Int.ofNat (digitsToNat core))
    else Option.none

/-- Python int(value) over the scalar kinds the client receives:
int(True) = 1, int(False) = 0, strings parse as decimal integers; None
and unparsable strings do not coerce. -/
def pyToInt : PyVal → Option Int
  | .int n => some n
  | .bool b => some (if b then 1 else 0)
  | .str s => parseIntStr s
  | .none => Option.none

/-- The min_value check of _validate_integer. -/
def checkMin (n : Int) (name : String) (minValue : Option Int) : Except YTSError Unit :=
  match minValue with
  | some m =>
      if n < m then
        .error (.parameterError ("Parameter \x27" ++ name ++ "\x27 must be at least " ++ toString m))
      else .ok ()
  | Option.none => .ok ()

/-- The max_value check of _validate_integer. -/
def checkMax (n : Int) (name : String) (maxValue : Option Int) : Except YTSError Unit :=
  match maxValue with
  | some m =>
      if m < n then
        .error (.parameterError ("Parameter \x27" ++ name ++ "\x27 must be at most " ++ toString m))
      else .ok ()
  | Option.none => .ok ()

/-- _validate_integer: None passes through as None; otherwise the value
is coerced with int() (ParameterError when not coercible) and checked
against the inclusive bounds. -/
def validate_integer (value : PyVal) (name : String)
    (minValue maxValue : Option Int) : Except YTSError (Option Int) :=
  match value with
  | .none => .ok Option.none
  | v =>
    match pyToInt v with
    | Option.none =>
        .error (.parameterError ("Parameter \x27" ++ name ++ "\x27 must be an integer"))
    | some n =>
      match checkMin n name minValue with
      | .error e => .error e
      | .ok _ =>
        match checkMax n name maxValue with
        | .error e => .error e
        | .ok _ => .ok (some n)

/-- _validate_string: None passes through; a non-string fails; when a
non-empty allowed list is given, membership is required and the error
message enumerates the allowed values comma-joined in declared order. -/
def validate_string (value : PyVal) (name : String)
    (allowed : Option (List String)) : Except YTSError (Option String) :=
  match value with
  | .none => .ok Option.none
  | .str s =>
    match allowed with
    | some al =>
        if al ≠ [] ∧ s ∉ al then
          .error (.parameterError
            ("Parameter \x27" ++ name ++ "\x27 must be one of: " ++ String.intercalate ", " al))
        else .ok (some s)
    | Option.none => .ok (some s)
  | _ => .error (.parameterError ("Parameter \x27" ++ name ++ "\x27 must be a string"))

/-- _validate_boolean: None passes through; only a strict bool is
accepted, nothing is coerced. -/
def validate_boolean (value : PyVal) (name : String) : Except YTSError (Option Bool) :=
  match value with
  | .none => .ok Option.none
  | .bool b => .ok (some b)
  | _ => .error (.parameterError ("Parameter \x27" ++ name ++ "\x27 must be a boolean"))

/-- _validate_required: None fails, anything else passes through. -/
def validate_required (value : PyVal) (name : String) : Except YTSError PyVal :=
  match value with
  | .none => .error (.parameterError ("Parameter \x27" ++ name ++ "\x27 is required"))
  | v => .ok v

/-- Values stored in the query-parameter dict handed to requests.get:
a validated integer, a string, or None (when a validator passed None
through). -/
inductive QVal where
  | none
  | int (n : Int)
  | str (s : String)
deriving Repr, DecidableEq

/-- An Optional[int] validator result as stored into the params dict. -/
def qvalOfInt : Option Int → QVal
  | some n => .int n
  | Option.none => .none

/-- An Optional[str] validator result as stored into the params dict. -/
def qvalOfStr : Option String → QVal
  | some s => .str s
  | Option.none => .none

/-- Outcome of requests.get followed by raise_for_status and
response.json(): either a RequestException (connection error, timeout,
or non-2xx status), or a 2xx response whose body parses to JSON (some j)
or is not valid JSON (Option.none). -/
inductive TransportResult where
  | exn (msg : String)
  | body (j : Option Json)

/-- A mock transport: full URL, query parameters and timeout determine
the outcome. -/
def Transport : Type := String → List (String × QVal) → Int → TransportResult

/-- The client configuration set by YTSClient.__init__ (base_url,
timeout); no other instance attribute is ever assigned. -/
structure ClientState where
  base_url : String
  timeout : Int
deriving Repr, DecidableEq

/-- YTSClient.__init__. -/
def client_init (base_url : String) (timeout : Int) : ClientState :=
  ⟨base_url, timeout⟩

/-- Whether response.get("status") compares equal to the string "ok". -/
def isOkStatus (o : Option Json) : Bool :=
  match o with
  | some (.str s) => s == "ok"
  | _ => false

/-- _validate_response: a status other than "ok" raises YTSResponseError
carrying the envelope status_message (or the fallback "Unknown API
error"); otherwise response.get("data", \x7b\x7d) is returned. -/
def validate_response (response : Json) : Except YTSError Json :=
  if ¬ isOkStatus (jsonGet response "status") then
    .error (.responseError
      ("API error: " ++ ((jsonGet response "status_message").map pyStr).getD "Unknown API error"))
  else
    .ok ((jsonGet response "data").getD (Json.obj []))

/-- _make_request: a RequestException becomes YTSRequestError, an
unparsable 2xx body becomes YTSResponseError, and a decoded body is fed
to _validate_response.  The URL is base_url ++ endpoint. -/
def make_request (st : ClientState) (endpoint : String)
    (params : List (String × QVal)) (t : Transport) : Except YTSError Json :=
  match t (st.base_url ++ endpoint) params st.timeout with
  | .exn m => .error (.requestError ("Request failed: " ++ m))
  | .body Option.none => .error (.responseError "Failed to parse JSON response")
  | .body (some j) => validate_response j

/-- The quality enum accepted by list_movies. -/
def quality_options : List String :=
  ["480p", "720p", "1080p", "1080p.x265", "2160p", "3D"]

/-- The sort_by enum accepted by list_movies. -/
def sort_options : List String :=
  ["title", "year", "rating", "peers", "seeds", "download_count", "like_count", "date_added"]

/-- The order_by enum accepted by list_movies. -/
def order_options : List String :=
  ["desc", "asc"]

/-- Truthiness of an Optional[str], as `if query_term:` tests it: true
exactly on a non-empty string. -/
def optStrTruthy : Option String → Bool
  | some s => !s.isEmpty
  | Option.none => false

/-- Parameter validation and query-dict assembly of list_movies: the
five core keys are always inserted (in dict-literal order), then
quality, query_term, genre and with_rt_ratings are appended only when
truthy, the boolean as the literal string "true". -/
def list_movies_params (limit page quality minimum_rating : PyVal)
    (query_term genre : Option String)
    (sort_by order_by with_rt_ratings : PyVal) :
    Except YTSError (List (String × QVal)) :=
  match validate_integer limit "limit" (some 1) (some 50) with
  | .error e => .error e
  | .ok limitV =>
  match validate_integer page "page" (some 1) Option.none with
  | .error e => .error e
  | .ok pageV =>
  match validate_integer minimum_rating "minimum_rating" (some 0) (some 9) with
  | .error e => .error e
  | .ok mrV =>
  match validate_string quality "quality" (some quality_options) with
  | .error e => .error e
  | .ok qualityV =>
  match validate_string sort_by "sort_by" (some sort_options) with
  | .error e => .error e
  | .ok sortV =>
  match validate_string order_by "order_by" (some order_options) with
  | .error e => .error e
  | .ok orderV =>
  match validate_boolean with_rt_ratings "with_rt_ratings" with
  | .error e => .error e
  | .ok rtV =>
    .ok ([("limit", qvalOfInt limitV), ("page", qvalOfInt pageV),
          ("minimum_rating", qvalOfInt mrV), ("sort_by", qvalOfStr sortV),
          ("order_by", qvalOfStr orderV)]
      ++ (if optStrTruthy qualityV then [("quality", QVal.str (qualityV.getD ""))] else [])
      ++ (if optStrTruthy query_term then [("query_term", QVal.str (query_term.getD ""))] else [])
      ++ (if optStrTruthy genre then [("genre", QVal.str (genre.getD ""))] else [])
      ++ (if rtV = some true then [("with_rt_ratings", QVal.str "true")] else []))

/-- list_movies: validate, assemble the query dict, then delegate to
_make_request on endpoint "list_movies.json". -/
def list_movies (st : ClientState) (limit page quality minimum_rating : PyVal)
    (query_term genre : Option String)
    (sort_by order_by with_rt_ratings : PyVal) (t : Transport) :
    Except YTSError Json :=
  match list_movies_params limit page quality minimum_rating query_term genre
      sort_by order_by with_rt_ratings with
  | .error e => .error e
  | .ok ps => make_request st "list_movies.json" ps t

/-- search_movies: delegates to list_movies with query_term set and the
remaining parameters at their declared defaults.  query_term itself is
never validated. -/
def search_movies (st : ClientState) (query_term : Option String)
    (limit page : PyVal) (t : Transport) : Except YTSError Json :=
  list_movies st limit page PyVal.none (PyVal.int 0) query_term Option.none
    (PyVal.str "date_added") (PyVal.str "desc") (PyVal.bool false) t

/-- list_latest_movies: delegates to list_movies forcing
sort_by="date_added", order_by="desc". -/
def list_latest_movies (st : ClientState) (limit page : PyVal) (t : Transport) :
    Except YTSError Json :=
  list_movies st limit page PyVal.none (PyVal.int 0) Option.none Option.none
    (PyVal.str "date_added") (PyVal.str "desc") (PyVal.bool false) t

/-- Parameter validation and query-dict assembly of movie_details: the
both-identifiers-absent check runs first, then the two booleans are
validated, movie_id is validated (min 1) only when present, imdb_id is
passed through unvalidated, and the booleans are sent as "true" only
when true. -/
def movie_details_params (movie_id : PyVal) (imdb_id : Option String)
    (with_images with_cast : PyVal) : Except YTSError (List (String × QVal)) :=
  if movie_id = PyVal.none ∧ imdb_id = Option.none then
    .error (.parameterError "Either \x27movie_id\x27 or \x27imdb_id\x27 is required")
  else
  match validate_boolean with_images "with_images" with
  | .error e => .error e
  | .ok wiV =>
  match validate_boolean with_cast "with_cast" with
  | .error e => .error e
  | .ok wcV =>
  match (if movie_id = PyVal.none then Except.ok ([] : List (String × QVal))
         else
           match validate_integer movie_id "movie_id" (some 1) Option.none with
           | .error e => .error e
           | .ok v => .ok [("movie_id", qvalOfInt v)]) with
  | .error e => .error e
  | .ok midPart =>
    .ok (midPart
      ++ (match imdb_id with
          | some s => [("imdb_id", QVal.str s)]
          | Option.none => [])
      ++ (if wiV = some true then [("with_images", QVal.str "true")] else [])
      ++ (if wcV = some true then [("with_cast", QVal.str "true")] else []))

/-- movie_details: validate and assemble, then delegate to _make_request
on endpoint "movie_details.json". -/
def movie_details (st : ClientState) (movie_id : PyVal) (imdb_id : Option String)
    (with_images with_cast : PyVal) (t : Transport) : Except YTSError Json :=
  match movie_details_params movie_id imdb_id with_images with_cast with
  | .error e => .error e
  | .ok ps => make_request st "movie_details.json" ps t

/-- Shared parameter handling of movie_suggestions and
movie_parental_guides: movie_id is required, then validated with min 1. -/
def movie_id_params (movie_id : PyVal) : Except YTSError (List (String × QVal)) :=
  match validate_required movie_id "movie_id" with
  | .error e => .error e
  | .ok v =>
  match validate_integer v "movie_id" (some 1) Option.none with
  | .error e => .error e
  | .ok n => .ok [("movie_id", qvalOfInt n)]

/-- movie_suggestions. -/
def movie_suggestions (st : ClientState) (movie_id : PyVal) (t : Transport) :
    Except YTSError Json :=
  match movie_id_params movie_id with
  | .error e => .error e
  | .ok ps => make_request st "movie_suggestions.json" ps t

/-- movie_parental_guides. -/
def movie_parental_guides (st : ClientState) (movie_id : PyVal) (t : Transport) :
    Except YTSError Json :=
  match movie_id_params movie_id with
  | .error e => .error e
  | .ok ps => make_request st "movie_parental_guides.json" ps t

/-- The UTF-8 byte sequence of a character, as Python encodes text
before percent-encoding. -/
def utf8Bytes (c : Char) : List Nat :=
  let n := c.toNat
  if n < 128 then [n]
  else if n < 2048 then [192 + n / 64, 128 + n % 64]
  else if n < 65536 then [224 + n / 4096, 128 + (n / 64) % 64, 128 + n % 64]
  else [240 + n / 262144, 128 + (n / 4096) % 64, 128 + (n / 64) % 64, 128 + n % 64]

/-- The bytes urllib.parse.quote leaves unencoded with its default
safe set: ASCII letters, digits, "_.-~" and the default-safe "/". -/
def quoteSafeByte (b : Nat) : Bool :=
  if (65 ≤ b ∧ b ≤ 90) ∨ (97 ≤ b ∧ b ≤ 122) ∨ (48 ≤ b ∧ b ≤ 57) ∨
     b = 45 ∨ b = 46 ∨ b = 95 ∨ b = 126 ∨ b = 47 then true else false

/-- Upper-case hexadecimal digit. -/
def hexDigit (n : Nat) : Char :=
  if n < 10 then Char.ofNat (48 + n) else Char.ofNat (55 + n)

/-- Percent-encoding of a single byte, upper-case hex. -/
def percentByte (b : Nat) : String :=
  String.mk [Char.mk 37 (by decide), hexDigit (b / 16), hexDigit (b % 16)]

/-- urllib.parse.quote with its default arguments: every UTF-8 byte of
the input is kept when safe and percent-encoded otherwise. -/
def urlquote (s : String) : String :=
  String.join (s.data.map fun c =>
    String.join ((utf8Bytes c).map fun b =>
      if quoteSafeByte b then String.mk [Char.ofNat b] else percentByte b))

/-- The eight built-in DEFAULT_TRACKERS of YTSClient, in declared
order. -/
def DEFAULT_TRACKERS : List String :=
  ["udp://open.demonii.com:1337/announce",
   "udp://tracker.openbittorrent.com:80",
   "udp://tracker.coppersurfer.tk:6969",
   "udp://glotorrents.pw:6969/announce",
   "udp://tracker.opentrackr.org:1337/announce",
   "udp://torrent.gresille.org:80/announce",
   "udp://p4p.arenabg.com:1337",
   "udp://tracker.leechers-paradise.org:6969"]

/-- construct_magnet_url: the hash goes in verbatim, the title and each
tracker are percent-encoded, trackers default to DEFAULT_TRACKERS, and
tracker segments are appended by a fold in list order. -/
def construct_magnet_url (hash_value title : String)
    (trackers : Option (List String)) : String :=
  let trackers := trackers.getD DEFAULT_TRACKERS
  let encoded_title := urlquote title
  let magnet := "magnet:?xt=urn:btih:" ++ hash_value ++ "&dn=" ++ encoded_title
  trackers.foldl (fun m tr => m ++ "&tr=" ++ urlquote tr) magnet

/-- response.iter_content(chunk_size): the body split into consecutive
chunks of at most the given size (the final chunk may be shorter). -/
def chunksOf (size : Nat) : List Nat → List (List Nat)
  | [] => []
  | b :: rest => (b :: rest.take (size - 1)) :: chunksOf size (rest.drop (size - 1))
termination_by l => l.length
decreasing_by
  simp
  omega

/-- Outcome of the streaming GET in download_torrent_file: a
RequestException, or a 2xx response carrying the body bytes. -/
inductive DownloadNet where
  | exn (msg : String)
  | ok (body : List Nat)

/-- Outcome of opening/writing the destination file. -/
inductive SaveOutcome where
  | ok
  | ioError (msg : String)

/-- download_torrent_file: on transport failure raises YTSRequestError
naming the download phase; on local IOError raises YTSRequestError
naming the save phase; otherwise writes every non-empty 8192-byte chunk
of the body and returns True together with the bytes written. -/
def download_torrent_file (net : DownloadNet) (save : SaveOutcome) :
    Except YTSError (Bool × List Nat) :=
  match net with
  | .exn m => .error (.requestError ("Failed to download torrent file: " ++ m))
  | .ok body =>
    match save with
    | .ioError m => .error (.requestError ("Failed to save torrent file: " ++ m))
    | .ok =>
        .ok (true, ((chunksOf 8192 body).filter fun c => !c.isEmpty).flatten)

/-- The stateful view of a client method call for the statelessness
claims: the Python bodies assign no instance attribute, so each call
returns its result together with the (unchanged) instance state. -/
def list_latest_movies_call (st : ClientState) (limit page : PyVal)
    (t : Transport) : Except YTSError Json × ClientState :=
  (list_latest_movies st limit page t, st)

/-- A mock transport whose GET always raises (connection error /
timeout / non-2xx after raise_for_status). -/
def failTransport (m : String) : Transport := fun _ _ _ => .exn m

/-- A mock transport whose GET succeeds but whose body is not valid
JSON. -/
def badJsonTransport : Transport := fun _ _ _ => .body Option.none

/-- A mock transport that always returns the given decoded JSON
envelope. -/
def okTransport (env : Json) : Transport := fun _ _ _ => .body (some env)

/-- A sample client configuration (the library defaults). -/
def sampleClient : ClientState := client_init "https://yts.mx/api/v2/" 10

/-- A minimal all-ok envelope. -/
def okEnvelope : Json := .obj [("status", .str "ok"), ("data", .obj [])]

/-- The concatenated tracker segments of a magnet URI, one
"&tr=" ++ quote(tracker) per tracker in list order. -/
def magnetTail : List String → String
  | [] => ""
  | tr :: rest => "&tr=" ++ urlquote tr ++ magnetTail rest

/-! Helper lemmas. -/

lemma foldl_magnetTail (l : List String) (m : String) :
    l.foldl (fun acc tr => acc ++ ("&tr=" ++ urlquote tr)) m = m ++ magnetTail l := by
  induction l generalizing m with
  | nil => simp [magnetTail]
  | cons x xs ih =>
      rw [List.foldl_cons, ih]
      simp [magnetTail, String.append_assoc]

lemma validate_boolean_ok (v : PyVal) (name : String) (r : Option Bool) :
    validate_boolean v name = .ok r ↔
      (v = PyVal.none ∧ r = Option.none) ∨ (∃ b, v = PyVal.bool b ∧ r = some b) := by
  cases v <;> simp [validate_boolean, eq_comm]

lemma validate_string_ok_cases (v : PyVal) (name : String) (al : List String)
    (r : Option String) (h : validate_string v name (some al) = .ok r) :
    (v = PyVal.none ∧ r = Option.none) ∨
      (∃ s, v = PyVal.str s ∧ r = some s ∧ (al = [] ∨ s ∈ al)) := by
  cases v with
  | none => simp [validate_string] at h; simp [h]
  | str s =>
      simp only [validate_string] at h
      split at h
      · simp at h
      · rename_i hcond
        simp at h hcond
        refine Or.inr ⟨s, rfl, h.symm, ?_⟩
        by_cases hal : al = []
        · exact Or.inl hal
        · exact Or.inr (hcond hal)
  | int n => simp [validate_string] at h
  | bool b => simp [validate_string] at h

lemma validate_integer_of_pyToInt (v : PyVal) (n : Int) (hv : pyToInt v = some n)
    (name : String) (lo hi : Option Int) :
    validate_integer v name lo hi =
      match checkMin n name lo with
      | .error e => .error e
      | .ok _ =>
        match checkMax n name hi with
        | .error e => .error e
        | .ok _ => .ok (some n) := by
  cases v with
  | none => simp [pyToInt] at hv
  | int k =>
      simp only [pyToInt, Option.some.injEq] at hv
      subst hv
      rfl
  | str s =>
      simp only [pyToInt] at hv
      simp [validate_integer, pyToInt, hv]
  | bool b =>
      cases b <;> simp only [pyToInt, Option.some.injEq, if_true, if_false] at hv <;>
        subst hv <;> rfl

lemma chunksOf_flatten (size : Nat) (l : List Nat) : (chunksOf size l).flatten = l := by
  induction l using chunksOf.induct size with
  | case1 => simp [chunksOf]
  | case2 b rest ih =>
      rw [chunksOf]
      simp [ih]

lemma chunksOf_ne_nil (size : Nat) (l : List Nat) :
    ∀ c ∈ chunksOf size l, c ≠ [] := by
  induction l using chunksOf.induct size with
  | case1 => simp [chunksOf]
  | case2 b rest ih =>
      rw [chunksOf]
      intro c hc
      rcases List.mem_cons.1 hc with h | h
      · subst h; simp
      · exact ih c h

lemma chunksOf_length_le (size : Nat) (hsize : 1 ≤ size) (l : List Nat) :
    ∀ c ∈ chunksOf size l, c.length ≤ size := by
  induction l using chunksOf.induct size with
  | case1 => simp [chunksOf]
  | case2 b rest ih =>
      rw [chunksOf]
      intro c hc
      rcases List.mem_cons.1 hc with h | h
      · subst h
        simp [List.length_take]
        omega
      · exact ih c h

lemma memIfNil {α : Type} (c : Prop) [Decidable c] (x : α) (l : List α) :
    (x ∈ if c then l else []) ↔ c ∧ x ∈ l := by
  by_cases h : c
  · simp [h]
  · simp [h]

lemma quality_options_ne_empty : ∀ s ∈ quality_options, s.isEmpty = false := by
  decide

lemma isOkStatus_iff (o : Option Json) : isOkStatus o = true ↔ o = some (Json.str "ok") := by
  cases o with
  | none => simp [isOkStatus]
  | some j => cases j <;> simp [isOkStatus]

/-! Claim theorems. -/

/-- C6: construct_magnet_url produces
magnet:?xt=urn:btih:[hash]&dn=[encoded title] followed by one
&tr=[encoded tracker] segment per tracker in list order, with the hash
not re-encoded; with trackers omitted the 8 DEFAULT_TRACKERS are used in
declared order, and on hash "ABC123", title "My Movie: Part 2" the
output starts with
magnet:?xt=urn:btih:ABC123&dn=My%20Movie%3A%20Part%202 followed by the 8
encoded default-tracker segments. -/
theorem construct_magnet_url_spec :
    (∀ h t trs, construct_magnet_url h t (some trs)
        = "magnet:?xt=urn:btih:" ++ h ++ "&dn=" ++ urlquote t ++ magnetTail trs) ∧
    (∀ h t, construct_magnet_url h t Option.none
        = "magnet:?xt=urn:btih:" ++ h ++ "&dn=" ++ urlquote t ++ magnetTail DEFAULT_TRACKERS) ∧
    DEFAULT_TRACKERS.length = 8 ∧
    construct_magnet_url "ABC123" "My Movie: Part 2" Option.none
      = "magnet:?xt=urn:btih:ABC123&dn=My%20Movie%3A%20Part%202"
        ++ "&tr=udp%3A//open.demonii.com%3A1337/announce"
        ++ "&tr=udp%3A//tracker.openbittorrent.com%3A80"
        ++ "&tr=udp%3A//tracker.coppersurfer.tk%3A6969"
        ++ "&tr=udp%3A//glotorrents.pw%3A6969/announce"
        ++ "&tr=udp%3A//tracker.opentrackr.org%3A1337/announce"
        ++ "&tr=udp%3A//torrent.gresille.org%3A80/announce"
        ++ "&tr=udp%3A//p4p.arenabg.com%3A1337"
        ++ "&tr=udp%3A//tracker.leechers-paradise.org%3A6969" := by
  refine ⟨?_, ?_, rfl, ?_⟩
  · intro h t trs
    simp [construct_magnet_url, foldl_magnetTail, String.append_assoc]
  · intro h t
    simp [construct_magnet_url, foldl_magnetTail, String.append_assoc]
  · have h2 : construct_magnet_url "ABC123" "My Movie: Part 2" Option.none
        = "magnet:?xt=urn:btih:" ++ "ABC123" ++ "&dn=" ++ urlquote "My Movie: Part 2"
          ++ magnetTail DEFAULT_TRACKERS := by
      simp [construct_magnet_url, foldl_magnetTail, String.append_assoc]
    rw [h2]
    simp only [DEFAULT_TRACKERS, magnetTail]
    rw [show urlquote "My Movie: Part 2" = "My%20Movie%3A%20Part%202" from rfl]
    rw [show urlquote "udp://open.demonii.com:1337/announce"
        = "udp%3A//open.demonii.com%3A1337/announce" from rfl]
    rw [show urlquote "udp://tracker.openbittorrent.com:80"
        = "udp%3A//tracker.openbittorrent.com%3A80" from rfl]
    rw [show urlquote "udp://tracker.coppersurfer.tk:6969"
        = "udp%3A//tracker.coppersurfer.tk%3A6969" from rfl]
    rw [show urlquote "udp://glotorrents.pw:6969/announce"
        = "udp%3A//glotorrents.pw%3A6969/announce" from rfl]
    rw [show urlquote "udp://tracker.opentrackr.org:1337/announce"
        = "udp%3A//tracker.opentrackr.org%3A1337/announce" from rfl]
    rw [show urlquote "udp://torrent.gresille.org:80/announce"
        = "udp%3A//torrent.gresille.org%3A80/announce" from rfl]
    rw [show urlquote "udp://p4p.arenabg.com:1337"
        = "udp%3A//p4p.arenabg.com%3A1337" from rfl]
    rw [show urlquote "udp://tracker.leechers-paradise.org:6969"
        = "udp%3A//tracker.leechers-paradise.org%3A6969" from rfl]
    simp [String.append_assoc]

/-- C2: unwrapping a decoded JSON envelope: a status other than "ok"
raises ResponseError whose message carries the envelope status_message
(or the generic fallback when it is absent); a status of "ok" returns
the data mapping, substituting the empty mapping — never null — when the
data key is missing. -/
theorem validate_response_unwrap :
    (∀ fs m, List.lookup "status" fs ≠ some (Json.str "ok") →
        List.lookup "status_message" fs = some (Json.str m) →
        validate_response (Json.obj fs) = .error (.responseError ("API error: " ++ m))) ∧
    (∀ fs, List.lookup "status" fs ≠ some (Json.str "ok") →
        List.lookup "status_message" fs = Option.none →
        validate_response (Json.obj fs)
          = .error (.responseError "API error: Unknown API error")) ∧
    (∀ fs d, List.lookup "status" fs = some (Json.str "ok") →
        List.lookup "data" fs = some d →
        validate_response (Json.obj fs) = .ok d) ∧
    (∀ fs, List.lookup "status" fs = some (Json.str "ok") →
        List.lookup "data" fs = Option.none →
        validate_response (Json.obj fs) = .ok (Json.obj [])) := by
  have hok : ∀ fs : List (String × Json), List.lookup "status" fs ≠ some (Json.str "ok") →
      isOkStatus (List.lookup "status" fs) = false := by
    intro fs hs
    cases hh : isOkStatus (List.lookup "status" fs) with
    | false => rfl
    | true => exact absurd ((isOkStatus_iff _).1 hh) hs
  refine ⟨?_, ?_, ?_, ?_⟩
  · intro fs m hs hm
    simp [validate_response, jsonGet, hok fs hs, hm, pyStr]
  · intro fs hs hm
    simp [validate_response, jsonGet, hok fs hs, hm]
  · intro fs d hs hd
    simp [validate_response, jsonGet, hs, hd, isOkStatus]
  · intro fs hs hd
    simp [validate_response, jsonGet, hs, hd, isOkStatus]

/-- C2 witness: the four cases of validate_response at concrete
envelopes, including the spec mock envelope carrying status_message
"Movie not found". -/
theorem validate_response_unwrap_witness :
    (List.lookup "status" [("status", Json.str "error"), ("status_message", Json.str "Movie not found")]
        ≠ some (Json.str "ok")) ∧
    validate_response
        (Json.obj [("status", Json.str "error"), ("status_message", Json.str "Movie not found")])
      = .error (.responseError "API error: Movie not found") ∧
    validate_response (Json.obj [("status", Json.str "fail")])
      = .error (.responseError "API error: Unknown API error") ∧
    validate_response (Json.obj [("status", Json.str "ok"), ("data", Json.num 3)])
      = .ok (Json.num 3) ∧
    validate_response (Json.obj [("status", Json.str "ok")]) = .ok (Json.obj []) := by
  refine ⟨by simp, ?_, ?_, ?_, ?_⟩
  · exact validate_response_unwrap.1 _ "Movie not found" (by simp) rfl
  · exact validate_response_unwrap.2.1 _ (by simp) rfl
  · exact validate_response_unwrap.2.2.1 _ (Json.num 3) rfl rfl
  · exact validate_response_unwrap.2.2.2 _ rfl rfl

/-- C3: a transport-level failure (connection error, timeout, non-2xx
status) surfaces as RequestError wrapping the underlying message and
never ResponseError, while a 2xx response whose body is not valid JSON
surfaces as ResponseError — both for _make_request itself and for every
catalog operation called with valid arguments. -/
theorem transport_failure_error_split :
    (∀ st endpoint ps m, make_request st endpoint ps (failTransport m)
        = .error (.requestError ("Request failed: " ++ m))) ∧
    (∀ st endpoint ps, make_request st endpoint ps badJsonTransport
        = .error (.responseError "Failed to parse JSON response")) ∧
    (∀ st m,
      list_movies st (PyVal.int 20) (PyVal.int 1) PyVal.none (PyVal.int 0) Option.none
          Option.none (PyVal.str "date_added") (PyVal.str "desc") (PyVal.bool false)
          (failTransport m) = .error (.requestError ("Request failed: " ++ m)) ∧
      search_movies st (some "q") (PyVal.int 20) (PyVal.int 1) (failTransport m)
        = .error (.requestError ("Request failed: " ++ m)) ∧
      list_latest_movies st (PyVal.int 20) (PyVal.int 1) (failTransport m)
        = .error (.requestError ("Request failed: " ++ m)) ∧
      movie_details st (PyVal.int 5) Option.none (PyVal.bool false) (PyVal.bool false)
          (failTransport m) = .error (.requestError ("Request failed: " ++ m)) ∧
      movie_suggestions st (PyVal.int 5) (failTransport m)
        = .error (.requestError ("Request failed: " ++ m)) ∧
      movie_parental_guides st (PyVal.int 5) (failTransport m)
        = .error (.requestError ("Request failed: " ++ m))) ∧
    (∀ st,
      list_movies st (PyVal.int 20) (PyVal.int 1) PyVal.none (PyVal.int 0) Option.none
          Option.none (PyVal.str "date_added") (PyVal.str "desc") (PyVal.bool false)
          badJsonTransport = .error (.responseError "Failed to parse JSON response") ∧
      search_movies st (some "q") (PyVal.int 20) (PyVal.int 1) badJsonTransport
        = .error (.responseError "Failed to parse JSON response") ∧
      list_latest_movies st (PyVal.int 20) (PyVal.int 1) badJsonTransport
        = .error (.responseError "Failed to parse JSON response") ∧
      movie_details st (PyVal.int 5) Option.none (PyVal.bool false) (PyVal.bool false)
          badJsonTransport = .error (.responseError "Failed to parse JSON response") ∧
      movie_suggestions st (PyVal.int 5) badJsonTransport
        = .error (.responseError "Failed to parse JSON response") ∧
      movie_parental_guides st (PyVal.int 5) badJsonTransport
        = .error (.responseError "Failed to parse JSON response")) :=
  ⟨fun _ _ _ _ => rfl, fun _ _ _ => rfl,
   fun _ _ => ⟨rfl, rfl, rfl, rfl, rfl, rfl⟩,
   fun _ => ⟨rfl, rfl, rfl, rfl, rfl, rfl⟩⟩

/-- C4: a limit whose integer coercion falls below 1 or above 50 makes
list_movies raise ParameterError for every transport (so before any
network call); a limit coercing into [1,50] is sent as the query
parameter "limit" equal to the validated integer. -/
theorem list_movies_limit_range (v : PyVal) (n : Int) (hv : pyToInt v = some n) :
    (n < 1 → ∀ st page quality mr qt g sb ob rt t,
        list_movies st v page quality mr qt g sb ob rt t
          = .error (.parameterError "Parameter \x27limit\x27 must be at least 1")) ∧
    (50 < n → ∀ st page quality mr qt g sb ob rt t,
        list_movies st v page quality mr qt g sb ob rt t
          = .error (.parameterError "Parameter \x27limit\x27 must be at most 50")) ∧
    (1 ≤ n → n ≤ 50 → ∀ page quality mr qt g sb ob rt ps,
        list_movies_params v page quality mr qt g sb ob rt = .ok ps →
        List.lookup "limit" ps = some (QVal.int n)) := by
  refine ⟨?_, ?_, ?_⟩
  · intro hlt st page quality mr qt g sb ob rt t
    have h1 : validate_integer v "limit" (some 1) (some 50)
        = .error (.parameterError "Parameter \x27limit\x27 must be at least 1") := by
      rw [validate_integer_of_pyToInt v n hv]
      simp only [checkMin]
      rw [if_pos hlt]
      rfl
    unfold list_movies list_movies_params
    rw [h1]
  · intro hgt st page quality mr qt g sb ob rt t
    have h1 : validate_integer v "limit" (some 1) (some 50)
        = .error (.parameterError "Parameter \x27limit\x27 must be at most 50") := by
      rw [validate_integer_of_pyToInt v n hv]
      simp only [checkMin, checkMax]
      rw [if_neg (by omega), if_pos hgt]
      rfl
    unfold list_movies list_movies_params
    rw [h1]
  · intro h1 h50 page quality mr qt g sb ob rt ps hps
    have hval : validate_integer v "limit" (some 1) (some 50) = .ok (some n) := by
      rw [validate_integer_of_pyToInt v n hv]
      simp only [checkMin, checkMax]
      rw [if_neg (by omega), if_neg (by omega)]
    unfold list_movies_params at hps
    rw [hval] at hps
    simp only [] at hps
    split at hps
    · simp at hps
    split at hps
    · simp at hps
    split at hps
    · simp at hps
    split at hps
    · simp at hps
    split at hps
    · simp at hps
    split at hps
    · simp at hps
    simp only [Except.ok.injEq] at hps
    subst hps
    simp [List.lookup, qvalOfInt]

/-- C4 witness: limit 0 is rejected with the min-bound message, 51 with
the max-bound message, and the string-coercible limit "20" is sent as
the integer query parameter 20. -/
theorem list_movies_limit_range_witness :
    pyToInt (PyVal.int 0) = some 0 ∧ (0 : Int) < 1 ∧
    list_movies sampleClient (PyVal.int 0) (PyVal.int 1) PyVal.none (PyVal.int 0)
        Option.none Option.none (PyVal.str "date_added") (PyVal.str "desc")
        (PyVal.bool false) badJsonTransport
      = .error (.parameterError "Parameter \x27limit\x27 must be at least 1") ∧
    pyToInt (PyVal.int 51) = some 51 ∧ (50 : Int) < 51 ∧
    list_movies sampleClient (PyVal.int 51) (PyVal.int 1) PyVal.none (PyVal.int 0)
        Option.none Option.none (PyVal.str "date_added") (PyVal.str "desc")
        (PyVal.bool false) badJsonTransport
      = .error (.parameterError "Parameter \x27limit\x27 must be at most 50") ∧
    pyToInt (PyVal.str "20") = some 20 ∧
    list_movies_params (PyVal.str "20") (PyVal.int 1) PyVal.none (PyVal.int 0)
        Option.none Option.none (PyVal.str "date_added") (PyVal.str "desc")
        (PyVal.bool false)
      = .ok [("limit", QVal.int 20), ("page", QVal.int 1), ("minimum_rating", QVal.int 0),
             ("sort_by", QVal.str "date_added"), ("order_by", QVal.str "desc")] ∧
    List.lookup "limit"
        [(("limit" : String), QVal.int 20), ("page", QVal.int 1), ("minimum_rating", QVal.int 0),
         ("sort_by", QVal.str "date_added"), ("order_by", QVal.str "desc")]
      = some (QVal.int 20) :=
  ⟨rfl, by decide,
   (list_movies_limit_range (PyVal.int 0) 0 rfl).1 (by decide) sampleClient _ _ _ _ _ _ _ _ _,
   rfl, by decide,
   (list_movies_limit_range (PyVal.int 51) 51 rfl).2.1 (by decide) sampleClient _ _ _ _ _ _ _ _ _,
   rfl, rfl,
   (list_movies_limit_range (PyVal.str "20") 20 rfl).2.2 (by decide) (by decide)
     (PyVal.int 1) PyVal.none (PyVal.int 0) Option.none Option.none
     (PyVal.str "date_added") (PyVal.str "desc") (PyVal.bool false) _ rfl⟩

/-- C9: every client call is a pure function of the immutable
configuration, the arguments and the transport; calling
list_latest_movies twice against the same transport returns the state
unchanged and yields the identical result. -/
theorem list_latest_movies_stateless :
    ∀ base timeout limit page t,
      ((list_latest_movies_call (client_init base timeout) limit page t).2
          = client_init base timeout) ∧
      ((list_latest_movies_call
            ((list_latest_movies_call (client_init base timeout) limit page t).2)
            limit page t).1
        = (list_latest_movies_call (client_init base timeout) limit page t).1) := by
  intro base timeout limit page t
  exact ⟨rfl, rfl⟩

/-- C10: an empty string supplied for query_term or genre behaves
exactly like an absent parameter: validation passes and the key is
omitted from the query mapping (shown both in general and on the
default arguments with both parameters set to ""). -/
theorem empty_string_params_omitted :
    (∀ l p q mr g sb ob rt,
        list_movies_params l p q mr (some "") g sb ob rt
          = list_movies_params l p q mr Option.none g sb ob rt) ∧
    (∀ l p q mr qt sb ob rt,
        list_movies_params l p q mr qt (some "") sb ob rt
          = list_movies_params l p q mr qt Option.none sb ob rt) ∧
    (∀ st l p t, search_movies st (some "") l p t = search_movies st Option.none l p t) ∧
    list_movies_params (.int 20) (.int 1) PyVal.none (.int 0) (some "") (some "")
        (.str "date_added") (.str "desc") (.bool false)
      = .ok [("limit", QVal.int 20), ("page", QVal.int 1), ("minimum_rating", QVal.int 0),
             ("sort_by", QVal.str "date_added"), ("order_by", QVal.str "desc")] := by
  refine ⟨?_, ?_, ?_, rfl⟩
  · intro l p q mr g sb ob rt; rfl
  · intro l p q mr qt sb ob rt; rfl
  · intro st l p t; rfl

/-- C5 counterexample: search_movies with an absent (None) query term
does not fail with ParameterError before the network request — against a
transport answering an ok envelope it completes successfully, so no
client-side validation of query_term happens at all. -/
theorem search_movies_none_query_no_error :
    search_movies sampleClient Option.none (PyVal.int 20) (PyVal.int 1)
        (okTransport okEnvelope)
      = .ok (Json.obj []) := rfl

/-- C5 amended: search_movies performs no validation of query_term; it
delegates to list_movies with query_term set and all remaining
parameters at their declared defaults, so its result always equals that
of the corresponding list_movies call, and an absent query term simply
makes it behave exactly like list_latest_movies (the parameter is
omitted, no ParameterError is raised). -/
theorem search_movies_delegation :
    (∀ st q l p t, search_movies st q l p t
        = list_movies st l p PyVal.none (PyVal.int 0) q Option.none
            (PyVal.str "date_added") (PyVal.str "desc") (PyVal.bool false) t) ∧
    (∀ st l p t, search_movies st Option.none l p t = list_latest_movies st l p t) :=
  ⟨fun _ _ _ _ _ => rfl, fun _ _ _ _ => rfl⟩

/-- C1 counterexample: with every list_movies parameter left at its
declared default, the query mapping handed to the executor still
contains limit=20, page=1, minimum_rating=0, sort_by="date_added" and
order_by="desc" — parameters left at their default values ARE sent, so
the mapping does not contain only the non-default parameters. -/
theorem list_movies_defaults_are_sent :
    list_movies_params (PyVal.int 20) (PyVal.int 1) PyVal.none (PyVal.int 0)
        Option.none Option.none (PyVal.str "date_added") (PyVal.str "desc")
        (PyVal.bool false)
      = .ok [("limit", QVal.int 20), ("page", QVal.int 1), ("minimum_rating", QVal.int 0),
             ("sort_by", QVal.str "date_added"), ("order_by", QVal.str "desc")] := rfl

/-- C1 amended: for list_movies the five core parameters (limit, page,
minimum_rating, sort_by, order_by) are always present in the query
mapping, even at their default values; the optional parameters quality,
query_term and genre appear exactly when present and non-empty (with
their given value), and the boolean with_rt_ratings appears exactly when
true, as the literal string "true" and never as "false".  For
movie_details only the present identifiers are sent, and its booleans
likewise appear as "true" exactly when true. -/
theorem query_mapping_assembly :
    (∀ limit page quality mr qt g sb ob rt ps,
      list_movies_params limit page quality mr qt g sb ob rt = .ok ps →
        ((∃ v, ("limit", v) ∈ ps) ∧ (∃ v, ("page", v) ∈ ps) ∧
         (∃ v, ("minimum_rating", v) ∈ ps) ∧ (∃ v, ("sort_by", v) ∈ ps) ∧
         (∃ v, ("order_by", v) ∈ ps) ∧
         (∀ v, ("quality", v) ∈ ps ↔ ∃ s, quality = PyVal.str s ∧ v = QVal.str s) ∧
         (∀ v, ("query_term", v) ∈ ps ↔ optStrTruthy qt = true ∧ v = QVal.str (qt.getD "")) ∧
         (∀ v, ("genre", v) ∈ ps ↔ optStrTruthy g = true ∧ v = QVal.str (g.getD "")) ∧
         (∀ v, ("with_rt_ratings", v) ∈ ps ↔ rt = PyVal.bool true ∧ v = QVal.str "true"))) ∧
    (∀ mid imdb wi wc ps,
      movie_details_params mid imdb wi wc = .ok ps →
        (((∃ v, ("movie_id", v) ∈ ps) ↔ mid ≠ PyVal.none) ∧
         (∀ v, ("imdb_id", v) ∈ ps ↔ ∃ s, imdb = some s ∧ v = QVal.str s) ∧
         (∀ v, ("with_images", v) ∈ ps ↔ wi = PyVal.bool true ∧ v = QVal.str "true") ∧
         (∀ v, ("with_cast", v) ∈ ps ↔ wc = PyVal.bool true ∧ v = QVal.str "true"))) := by
  constructor
  · intro limit page quality mr qt g sb ob rt ps hps
    unfold list_movies_params at hps
    split at hps
    · simp at hps
    rename_i limitV hlimit
    split at hps
    · simp at hps
    rename_i pageV hpage
    split at hps
    · simp at hps
    rename_i mrV hmr
    split at hps
    · simp at hps
    rename_i qualityV hquality
    split at hps
    · simp at hps
    rename_i sortV hsort
    split at hps
    · simp at hps
    rename_i orderV horder
    split at hps
    · simp at hps
    rename_i rtV hrt
    simp only [Except.ok.injEq] at hps
    subst hps
    refine ⟨⟨qvalOfInt limitV, by simp⟩, ⟨qvalOfInt pageV, by simp⟩,
      ⟨qvalOfInt mrV, by simp⟩, ⟨qvalOfStr sortV, by simp⟩, ⟨qvalOfStr orderV, by simp⟩,
      ?_, ?_, ?_, ?_⟩
    · intro v
      rcases validate_string_ok_cases _ _ _ _ hquality with ⟨hq, hqv⟩ | ⟨s, hq, hqv, hal⟩
      · subst hqv
        simp [hq, memIfNil, optStrTruthy]
      · subst hqv
        subst hq
        have hs : s.isEmpty = false := by
          rcases hal with h | h
          · exact absurd h (by decide)
          · exact quality_options_ne_empty s h
        simp [memIfNil, optStrTruthy, hs]
    · intro v
      simp [memIfNil]
    · intro v
      simp [memIfNil]
    · intro v
      rcases (validate_boolean_ok _ _ _).1 hrt with ⟨hb, hbv⟩ | ⟨b, hb, hbv⟩
      · subst hbv
        simp [hb, memIfNil]
      · subst hbv
        subst hb
        cases b <;> simp [memIfNil]
  · intro mid imdb wi wc ps hps
    unfold movie_details_params at hps
    split at hps
    · simp at hps
    rename_i hnotboth
    split at hps
    · simp at hps
    rename_i wiV hwi
    split at hps
    · simp at hps
    rename_i wcV hwc
    split at hps
    · simp at hps
    rename_i midPart hmid
    simp only [Except.ok.injEq] at hps
    subst hps
    refine ⟨?_, ?_, ?_, ?_⟩
    · by_cases hm : mid = PyVal.none
      · rw [if_pos hm] at hmid
        simp only [Except.ok.injEq] at hmid
        subst hmid
        simp only [hm, ne_eq, not_true_eq_false, iff_false, not_exists]
        intro v
        cases imdb <;> simp [memIfNil]
      · rw [if_neg hm] at hmid
        split at hmid
        · simp at hmid
        rename_i nV hn
        simp only [Except.ok.injEq] at hmid
        subst hmid
        simp only [hm, ne_eq, not_false_eq_true, iff_true]
        exact ⟨qvalOfInt nV, by simp⟩
    · intro v
      have hmids : midPart = [] ∨ ∃ k, midPart = [(("movie_id" : String), k)] := by
        by_cases hm : mid = PyVal.none
        · rw [if_pos hm] at hmid
          simp only [Except.ok.injEq] at hmid
          exact Or.inl hmid.symm
        · rw [if_neg hm] at hmid
          split at hmid
          · simp at hmid
          rename_i nV hn
          simp only [Except.ok.injEq] at hmid
          exact Or.inr ⟨qvalOfInt nV, hmid.symm⟩
      rcases hmids with hmp | ⟨k, hmp⟩ <;> subst hmp <;>
        cases imdb <;> simp [memIfNil]
    · intro v
      have hmids : midPart = [] ∨ ∃ k, midPart = [(("movie_id" : String), k)] := by
        by_cases hm : mid = PyVal.none
        · rw [if_pos hm] at hmid
          simp only [Except.ok.injEq] at hmid
          exact Or.inl hmid.symm
        · rw [if_neg hm] at hmid
          split at hmid
          · simp at hmid
          rename_i nV hn
          simp only [Except.ok.injEq] at hmid
          exact Or.inr ⟨qvalOfInt nV, hmid.symm⟩
      rcases (validate_boolean_ok _ _ _).1 hwi with ⟨hb, hbv⟩ | ⟨b, hb, hbv⟩
      · subst hbv
        rcases hmids with hmp | ⟨k, hmp⟩ <;> subst hmp <;>
          cases imdb <;> simp [hb, memIfNil]
      · subst hbv
        subst hb
        rcases hmids with hmp | ⟨k, hmp⟩ <;> subst hmp <;>
          cases imdb <;> cases b <;> simp [memIfNil]
    · intro v
      have hmids : midPart = [] ∨ ∃ k, midPart = [(("movie_id" : String), k)] := by
        by_cases hm : mid = PyVal.none
        · rw [if_pos hm] at hmid
          simp only [Except.ok.injEq] at hmid
          exact Or.inl hmid.symm
        · rw [if_neg hm] at hmid
          split at hmid
          · simp at hmid
          rename_i nV hn
          simp only [Except.ok.injEq] at hmid
          exact Or.inr ⟨qvalOfInt nV, hmid.symm⟩
      rcases (validate_boolean_ok _ _ _).1 hwc with ⟨hb, hbv⟩ | ⟨b, hb, hbv⟩
      · subst hbv
        rcases hmids with hmp | ⟨k, hmp⟩ <;> subst hmp <;>
          cases imdb <;> simp [hb, memIfNil]
      · subst hbv
        subst hb
        rcases hmids with hmp | ⟨k, hmp⟩ <;> subst hmp <;>
          cases imdb <;> cases b <;> simp [memIfNil]

/-- C1 amended witness: the amended assembly rules applied to concrete
calls: list_movies with genre "Action" and with_rt_ratings true sends
genre and with_rt_ratings="true" and still sends the default limit;
movie_details with movie_id 5 sends no with_images key. -/
theorem query_mapping_assembly_witness :
    (list_movies_params (PyVal.int 20) (PyVal.int 1) PyVal.none (PyVal.int 0)
        Option.none (some "Action") (PyVal.str "date_added") (PyVal.str "desc")
        (PyVal.bool true)
      = .ok [("limit", QVal.int 20), ("page", QVal.int 1), ("minimum_rating", QVal.int 0),
             ("sort_by", QVal.str "date_added"), ("order_by", QVal.str "desc"),
             ("genre", QVal.str "Action"), ("with_rt_ratings", QVal.str "true")]) ∧
    (∃ v, ("limit", v) ∈
        [(("limit" : String), QVal.int 20), ("page", QVal.int 1), ("minimum_rating", QVal.int 0),
         ("sort_by", QVal.str "date_added"), ("order_by", QVal.str "desc"),
         ("genre", QVal.str "Action"), ("with_rt_ratings", QVal.str "true")]) ∧
    (("with_rt_ratings", QVal.str "true") ∈
        [(("limit" : String), QVal.int 20), ("page", QVal.int 1), ("minimum_rating", QVal.int 0),
         ("sort_by", QVal.str "date_added"), ("order_by", QVal.str "desc"),
         ("genre", QVal.str "Action"), ("with_rt_ratings", QVal.str "true")]
      ↔ PyVal.bool true = PyVal.bool true ∧ QVal.str "true" = QVal.str "true") ∧
    (movie_details_params (PyVal.int 5) Option.none (PyVal.bool false) (PyVal.bool false)
      = .ok [("movie_id", QVal.int 5)]) ∧
    (∀ v, (("with_images" : String), v) ∈ [(("movie_id" : String), QVal.int 5)]
      ↔ PyVal.bool false = PyVal.bool true ∧ v = QVal.str "true") := by
  refine ⟨rfl, ?_, ?_, rfl, ?_⟩
  · exact (query_mapping_assembly.1 (PyVal.int 20) (PyVal.int 1) PyVal.none (PyVal.int 0)
      Option.none (some "Action") (PyVal.str "date_added") (PyVal.str "desc")
      (PyVal.bool true) _ rfl).1
  · exact (query_mapping_assembly.1 (PyVal.int 20) (PyVal.int 1) PyVal.none (PyVal.int 0)
      Option.none (some "Action") (PyVal.str "date_added") (PyVal.str "desc")
      (PyVal.bool true) _ rfl).2.2.2.2.2.2.2.2 (QVal.str "true")
  · exact (query_mapping_assembly.2 (PyVal.int 5) Option.none (PyVal.bool false)
      (PyVal.bool false) _ rfl).2.2.1

/-- C8: download_torrent_file never returns False: a network failure
raises RequestError naming the download phase, a local write failure
raises RequestError naming the save phase, and on success it returns
True having streamed exactly the response body to the file in chunks of
at most 8192 bytes. -/
theorem download_torrent_file_spec (net : DownloadNet) (save : SaveOutcome) :
    (∀ r, download_torrent_file net save = .ok r → r.1 = true) ∧
    (∀ m, net = .exn m →
        download_torrent_file net save
          = .error (.requestError ("Failed to download torrent file: " ++ m))) ∧
    (∀ body m, net = .ok body → save = .ioError m →
        download_torrent_file net save
          = .error (.requestError ("Failed to save torrent file: " ++ m))) ∧
    (∀ body, net = .ok body → save = SaveOutcome.ok →
        download_torrent_file net save = .ok (true, body) ∧
        ∀ c ∈ chunksOf 8192 body, c.length ≤ 8192) := by
  have hdl : ∀ body, ((chunksOf 8192 body).filter fun c => !c.isEmpty).flatten = body := by
    intro body
    have hfil : ((chunksOf 8192 body).filter fun c => !c.isEmpty) = chunksOf 8192 body := by
      apply List.filter_eq_self.mpr
      intro c hc
      simpa [List.isEmpty_iff] using chunksOf_ne_nil 8192 body c hc
    rw [hfil, chunksOf_flatten]
  refine ⟨?_, ?_, ?_, ?_⟩
  · intro r hr
    cases net with
    | exn m => simp [download_torrent_file] at hr
    | ok body =>
        cases save with
        | ioError m => simp [download_torrent_file] at hr
        | ok =>
            simp [download_torrent_file] at hr
            rw [← hr]
  · intro m hm
    subst hm
    rfl
  · intro body m hb hs
    subst hb
    subst hs
    rfl
  · intro body hb hs
    subst hb
    subst hs
    refine ⟨?_, fun c hc => chunksOf_length_le 8192 (by omega) body c hc⟩
    simp [download_torrent_file, hdl]

/-- C8 witness: the three outcomes of download_torrent_file at concrete
inputs: a timeout fails with the download-phase message, a disk-full
write fails with the save-phase message, and a successful run returns
True with the body written. -/
theorem download_torrent_file_spec_witness :
    download_torrent_file (.exn "timeout") SaveOutcome.ok
      = .error (.requestError "Failed to download torrent file: timeout") ∧
    download_torrent_file (.ok [1, 2, 3]) (.ioError "disk full")
      = .error (.requestError "Failed to save torrent file: disk full") ∧
    download_torrent_file (.ok [1, 2, 3]) SaveOutcome.ok = .ok (true, [1, 2, 3]) :=
  ⟨(download_torrent_file_spec (.exn "timeout") SaveOutcome.ok).2.1 "timeout" rfl,
   (download_torrent_file_spec (.ok [1, 2, 3]) (.ioError "disk full")).2.2.1
     [1, 2, 3] "disk full" rfl rfl,
   ((download_torrent_file_spec (.ok [1, 2, 3]) SaveOutcome.ok).2.2.2 [1, 2, 3] rfl rfl).1⟩

/-- C7: movie_details raises ParameterError whenever both identifiers
are absent, regardless of the boolean arguments; movie_id 5 and the
string-coercible "5" both validate to the query parameter movie_id = 5;
and movie_id 0 fails the min-1 check. -/
theorem movie_details_id_validation :
    (∀ wi wc st t, movie_details st PyVal.none Option.none wi wc t
        = .error (.parameterError "Either \x27movie_id\x27 or \x27imdb_id\x27 is required")) ∧
    movie_details_params (PyVal.int 5) Option.none (PyVal.bool false) (PyVal.bool false)
      = .ok [("movie_id", QVal.int 5)] ∧
    movie_details_params (PyVal.str "5") Option.none (PyVal.bool false) (PyVal.bool false)
      = .ok [("movie_id", QVal.int 5)] ∧
    (∀ st t, movie_details st (PyVal.int 0) Option.none (PyVal.bool false) (PyVal.bool false) t
        = .error (.parameterError "Parameter \x27movie_id\x27 must be at least 1")) :=
  ⟨fun _ _ _ _ => rfl, rfl, rfl, fun _ _ => rfl⟩

end YTS
